import Mathlib

/-!
Shallow embedding of the navy-pdm backend (backend/app.py): three entity
tables (WorkOrder, Part, Notification) stored as lists, and the HTTP route
handlers translated as pure functions from (store, request data) to
(response, new store).  Timestamps are modelled as natural numbers (the
"current time" is passed explicitly where the handler calls
datetime.utcnow()).  JSON field maps for PATCH bodies are modelled as lists
of typed key/value entries, with an explicit constructor for unrecognized
keys, mirroring the hasattr/elif dispatch in the Python handlers.
-/

namespace NavyPdm

/-- HTTP-level outcome of a single-entity route: 200 with a value, 201 with
a value, or 404 with a message body. -/
inductive HttpResponse (α : Type) where
  | ok (value : α)
  | created (value : α)
  | notFound (message : String)
deriving Repr

/-- True exactly on the 404 branch. -/
def HttpResponse.isNotFound {α : Type} : HttpResponse α → Bool
  | .notFound _ => true
  | _ => false

/-- Response envelope of the three list endpoints. -/
structure ListResponse (α : Type) where
  items : List α
  total : Nat
  page : Nat
  pageSize : Nat
  hasNext : Bool
  hasPrevious : Bool
deriving Repr

/-- WorkOrder model (backend/app.py class WorkOrder).  `wo` is the primary
key; nullable Text columns are Option; DateTime columns are Nat. -/
structure WorkOrder where
  wo : String
  ship : String
  homeport : String
  fm : String
  gte : String
  priority : String
  status : String
  eta : Int
  symptoms : Option String
  recommended_action : Option String
  parts_required : Option String
  sla_category : Option String
  created_at : Nat
  updated_at : Nat
deriving Repr, DecidableEq, Inhabited

/-- Part model (backend/app.py class Part).  `id` is the primary key. -/
structure Part where
  id : String
  name : String
  system : String
  category : String
  stock_level : Int
  min_stock : Int
  max_stock : Int
  location : String
  condition : String
  lead_time : String
  supplier : String
  cost : Float
  last_updated : Nat
deriving Repr, Inhabited

/-- Notification model (backend/app.py class Notification). -/
structure Notification where
  id : String
  type : String
  title : String
  message : String
  timestamp : Nat
  priority : String
  category : String
  read : Bool
  work_order_id : Option String
deriving Repr, DecidableEq, Inhabited

/-- Lower-casing of one character, ASCII range (the letters that occur in
the query-parameter values this service compares). -/
def lowerChar (c : Char) : Char :=
  if 65 ≤ c.toNat ∧ c.toNat ≤ 90 then Char.ofNat (c.toNat + 32) else c

/-- Python `str.lower()` as used on the `read` query parameter. -/
def pyLower (s : String) : String := String.mk (s.toList.map lowerChar)

/-- Shows whether the first list occurs as a contiguous segment of the
second. -/
def listIsInfixOf (sub : List Char) : List Char → Bool
  | [] => sub.isEmpty
  | a :: rest => sub.isPrefixOf (a :: rest) || listIsInfixOf sub rest

/-- SQLAlchemy `column.contains(s)` on a string column: substring
containment test (case-sensitive). -/
def strContains (hay sub : String) : Bool :=
  listIsInfixOf sub.toList hay.toList

/-- Pagination applied by every list endpoint:
`query.offset((page - 1) * limit).limit(limit)`. -/
def paginate {α : Type} (xs : List α) (page limit : Nat) : List α :=
  (xs.drop ((page - 1) * limit)).take limit

/-- Conjunction of filters built by get_work_orders: `if status:` and
`if priority:` guard exact matches (an empty string is falsy in Python, so
it disables the filter), and `if search:` guards the OR of
`contains` checks over ship, fm and wo. -/
def woMatches (status priority search : Option String) (w : WorkOrder) : Bool :=
  (match status with
   | none => true
   | some s => s == "" || w.status == s) &&
  (match priority with
   | none => true
   | some s => s == "" || w.priority == s) &&
  (match search with
   | none => true
   | some s => s == "" ||
       (strContains w.ship s || strContains w.fm s || strContains w.wo s))

/-- GET /api/work-orders: filter, count before pagination, paginate, and
shape the envelope.  `pageArg`/`limitArg` are the raw query parameters,
defaulted to 1 and 50 as in `request.args.get(.., 1/50, type=int)`. -/
def get_work_orders (db : List WorkOrder) (pageArg limitArg : Option Nat)
    (status priority search : Option String) : ListResponse WorkOrder :=
  let page := pageArg.getD 1
  let limit := limitArg.getD 50
  let matching := db.filter (woMatches status priority search)
  let total := matching.length
  { items := paginate matching page limit
    total := total
    page := page
    pageSize := limit
    hasNext := decide (page * limit < total)
    hasPrevious := decide (1 < page) }

/-- GET /api/work-orders/{id}: `WorkOrder.query.get(wo_id)`. -/
def get_work_order (db : List WorkOrder) (wo_id : String) : HttpResponse WorkOrder :=
  match db.find? (fun w => w.wo == wo_id) with
  | none => .notFound "Work order not found"
  | some w => .ok w

/-- JSON body of POST /api/work-orders: required fields are present, the
four `.get(..)` fields may be absent (None). -/
structure WorkOrderInput where
  wo : String
  ship : String
  homeport : String
  fm : String
  gte : String
  priority : String
  status : String
  eta : Int
  symptoms : Option String
  recommendedAction : Option String
  partsRequired : Option String
  slaCategory : Option String
deriving Repr, DecidableEq

/-- POST /api/work-orders: build the row (created_at and updated_at take
the column default utcnow) and insert it. -/
def create_work_order (db : List WorkOrder) (data : WorkOrderInput) (now : Nat) :
    HttpResponse WorkOrder × List WorkOrder :=
  let w : WorkOrder :=
    { wo := data.wo
      ship := data.ship
      homeport := data.homeport
      fm := data.fm
      gte := data.gte
      priority := data.priority
      status := data.status
      eta := data.eta
      symptoms := data.symptoms
      recommended_action := data.recommendedAction
      parts_required := data.partsRequired
      sla_category := data.slaCategory
      created_at := now
      updated_at := now }
  (.created w, db ++ [w])

/-- One key/value entry of a PATCH body for a work order.  The snake-case
constructors are the attributes hit by the `hasattr` branch (including the
timestamp columns, which are settable attributes), the camel-case ones are
the explicit `elif` translations, and `unknown` is any other key, which the
loop ignores. -/
inductive WoField where
  | wo (v : String)
  | ship (v : String)
  | homeport (v : String)
  | fm (v : String)
  | gte (v : String)
  | priority (v : String)
  | status (v : String)
  | eta (v : Int)
  | symptoms (v : Option String)
  | recommended_action (v : Option String)
  | parts_required (v : Option String)
  | sla_category (v : Option String)
  | created_at (v : Nat)
  | updated_at (v : Nat)
  | recommendedAction (v : Option String)
  | partsRequired (v : Option String)
  | slaCategory (v : Option String)
  | unknown (key : String)
deriving Repr, DecidableEq

/-- Body of the `for key, value in data.items()` loop of update_work_order
(and of bulk_update_work_orders) for one entry. -/
def applyWoField (w : WorkOrder) : WoField → WorkOrder
  | .wo v => { w with wo := v }
  | .ship v => { w with ship := v }
  | .homeport v => { w with homeport := v }
  | .fm v => { w with fm := v }
  | .gte v => { w with gte := v }
  | .priority v => { w with priority := v }
  | .status v => { w with status := v }
  | .eta v => { w with eta := v }
  | .symptoms v => { w with symptoms := v }
  | .recommended_action v => { w with recommended_action := v }
  | .parts_required v => { w with parts_required := v }
  | .sla_category v => { w with sla_category := v }
  | .created_at v => { w with created_at := v }
  | .updated_at v => { w with updated_at := v }
  | .recommendedAction v => { w with recommended_action := v }
  | .partsRequired v => { w with parts_required := v }
  | .slaCategory v => { w with sla_category := v }
  | .unknown _ => w

/-- PATCH /api/work-orders/{id}: 404 if absent, else apply every entry of
the body and then unconditionally set updated_at to utcnow. -/
def update_work_order (db : List WorkOrder) (wo_id : String) (data : List WoField)
    (now : Nat) : HttpResponse WorkOrder × List WorkOrder :=
  match db.find? (fun w => w.wo == wo_id) with
  | none => (.notFound "Work order not found", db)
  | some w =>
      let w2 := { data.foldl applyWoField w with updated_at := now }
      (.ok w2, db.map (fun x => if x.wo == wo_id then w2 else x))

/-- DELETE /api/work-orders/{id}: 404 if absent, else remove the row. -/
def delete_work_order (db : List WorkOrder) (wo_id : String) :
    HttpResponse String × List WorkOrder :=
  match db.find? (fun w => w.wo == wo_id) with
  | none => (.notFound "Work order not found", db)
  | some _ => (.ok "Work order deleted successfully", db.eraseP (fun w => w.wo == wo_id))

/-- PATCH /api/work-orders/bulk: iterate over the updates; an id that is
not found is skipped, a found order gets the PartialUpdate loop plus the
updated_at refresh.  The handler collects the (row identities of the)
updated orders and renders their final state.  Returns (response list,
new store). -/
def bulk_update_work_orders (db : List WorkOrder)
    (updates : List (String × List WoField)) (now : Nat) :
    List WorkOrder × List WorkOrder :=
  let step := fun (acc : List WorkOrder × List Nat) (u : String × List WoField) =>
    match acc.1.findIdx? (fun w => w.wo == u.1) with
    | none => acc
    | some idx =>
        let w2 := { u.2.foldl applyWoField (acc.1.getD idx default) with updated_at := now }
        (acc.1.set idx w2, acc.2 ++ [idx])
  let final := updates.foldl step (db, [])
  (final.2.map (fun idx => final.1.getD idx default), final.1)

/-- Conjunction of filters built by get_parts: `if category:` and
`if condition:` guard exact matches, `if search:` guards the OR of
`contains` checks over name, id, supplier and location. -/
def partMatches (category condition search : Option String) (p : Part) : Bool :=
  (match category with
   | none => true
   | some s => s == "" || p.category == s) &&
  (match condition with
   | none => true
   | some s => s == "" || p.condition == s) &&
  (match search with
   | none => true
   | some s => s == "" ||
       (strContains p.name s || strContains p.id s ||
        strContains p.supplier s || strContains p.location s))

/-- GET /api/parts: same envelope construction as get_work_orders. -/
def get_parts (db : List Part) (pageArg limitArg : Option Nat)
    (category condition search : Option String) : ListResponse Part :=
  let page := pageArg.getD 1
  let limit := limitArg.getD 50
  let matching := db.filter (partMatches category condition search)
  let total := matching.length
  { items := paginate matching page limit
    total := total
    page := page
    pageSize := limit
    hasNext := decide (page * limit < total)
    hasPrevious := decide (1 < page) }

/-- GET /api/parts/{id}: `Part.query.get(part_id)`. -/
def get_part (db : List Part) (part_id : String) : HttpResponse Part :=
  match db.find? (fun p => p.id == part_id) with
  | none => .notFound "Part not found"
  | some p => .ok p

/-- One key/value entry of a PATCH body for a part.  Snake-case
constructors are the attributes hit by `hasattr`; the camel-case ones are
the `elif` translations.  Note that the `lastUpdated` key discards the
supplied value and writes utcnow, while the snake-case `last_updated`
attribute stores the supplied value. -/
inductive PartField where
  | id (v : String)
  | name (v : String)
  | system (v : String)
  | category (v : String)
  | stock_level (v : Int)
  | min_stock (v : Int)
  | max_stock (v : Int)
  | location (v : String)
  | condition (v : String)
  | lead_time (v : String)
  | supplier (v : String)
  | cost (v : Float)
  | last_updated (v : Nat)
  | stockLevel (v : Int)
  | minStock (v : Int)
  | maxStock (v : Int)
  | leadTime (v : String)
  | lastUpdated
  | unknown (key : String)
deriving Repr

/-- Body of the `for key, value in data.items()` loop of update_part for
one entry; `now` is the utcnow the handler would take for `lastUpdated`. -/
def applyPartField (now : Nat) (p : Part) : PartField → Part
  | .id v => { p with id := v }
  | .name v => { p with name := v }
  | .system v => { p with system := v }
  | .category v => { p with category := v }
  | .stock_level v => { p with stock_level := v }
  | .min_stock v => { p with min_stock := v }
  | .max_stock v => { p with max_stock := v }
  | .location v => { p with location := v }
  | .condition v => { p with condition := v }
  | .lead_time v => { p with lead_time := v }
  | .supplier v => { p with supplier := v }
  | .cost v => { p with cost := v }
  | .last_updated v => { p with last_updated := v }
  | .stockLevel v => { p with stock_level := v }
  | .minStock v => { p with min_stock := v }
  | .maxStock v => { p with max_stock := v }
  | .leadTime v => { p with lead_time := v }
  | .lastUpdated => { p with last_updated := now }
  | .unknown _ => p

/-- PATCH /api/parts/{id}: 404 if absent, else apply every entry of the
body.  Unlike update_work_order, there is no unconditional timestamp
refresh after the loop, and the last_updated column has no onupdate
default. -/
def update_part (db : List Part) (part_id : String) (data : List PartField)
    (now : Nat) : HttpResponse Part × List Part :=
  match db.find? (fun p => p.id == part_id) with
  | none => (.notFound "Part not found", db)
  | some p =>
      let p2 := data.foldl (applyPartField now) p
      (.ok p2, db.map (fun x => if x.id == part_id then p2 else x))

/-- DELETE /api/parts/{id}: 404 if absent, else remove the row. -/
def delete_part (db : List Part) (part_id : String) :
    HttpResponse String × List Part :=
  match db.find? (fun p => p.id == part_id) with
  | none => (.notFound "Part not found", db)
  | some _ => (.ok "Part deleted successfully", db.eraseP (fun p => p.id == part_id))

/-- PATCH /api/parts/{id}/stock: `add` adds the quantity unconditionally,
`subtract` clamps at zero, any other operation string falls through both
branches; last_updated is always set to utcnow. -/
def update_stock (db : List Part) (part_id : String) (quantity : Int)
    (operation : String) (now : Nat) : HttpResponse Part × List Part :=
  match db.find? (fun p => p.id == part_id) with
  | none => (.notFound "Part not found", db)
  | some p =>
      let s := if operation == "add" then p.stock_level + quantity
               else if operation == "subtract" then max 0 (p.stock_level - quantity)
               else p.stock_level
      let p2 := { p with stock_level := s, last_updated := now }
      (.ok p2, db.map (fun x => if x.id == part_id then p2 else x))

/-- Conjunction of filters built by get_notifications: `if category:` and
`if priority:` guard exact matches; the read parameter is compared
whenever it is present (`is not None`), against `read.lower() == "true"`. -/
def notifMatches (category priority readArg : Option String) (n : Notification) : Bool :=
  (match category with
   | none => true
   | some s => s == "" || n.category == s) &&
  (match priority with
   | none => true
   | some s => s == "" || n.priority == s) &&
  (match readArg with
   | none => true
   | some r => n.read == (pyLower r == "true"))

/-- GET /api/notifications: filter, count, order by timestamp descending,
then paginate. -/
def get_notifications (db : List Notification) (pageArg limitArg : Option Nat)
    (category priority readArg : Option String) : ListResponse Notification :=
  let page := pageArg.getD 1
  let limit := limitArg.getD 50
  let matching := db.filter (notifMatches category priority readArg)
  let total := matching.length
  let ordered := matching.mergeSort (fun a b => decide (b.timestamp ≤ a.timestamp))
  { items := paginate ordered page limit
    total := total
    page := page
    pageSize := limit
    hasNext := decide (page * limit < total)
    hasPrevious := decide (1 < page) }

/-- PATCH /api/notifications/{id}/read: 404 if absent, else set the read
flag of that row. -/
def mark_notification_read (db : List Notification) (notif_id : String) :
    HttpResponse Notification × List Notification :=
  match db.find? (fun n => n.id == notif_id) with
  | none => (.notFound "Notification not found", db)
  | some n =>
      let n2 := { n with read := true }
      (.ok n2, db.map (fun x => if x.id == notif_id then n2 else x))

/-- PATCH /api/notifications/read-all: `Notification.query.update` with
read = True across every row, no filter. -/
def mark_all_notifications_read (db : List Notification) :
    String × List Notification :=
  ("All notifications marked as read", db.map (fun n => { n with read := true }))

/-- DELETE /api/notifications/{id}: 404 if absent, else remove the row. -/
def delete_notification (db : List Notification) (notif_id : String) :
    HttpResponse String × List Notification :=
  match db.find? (fun n => n.id == notif_id) with
  | none => (.notFound "Notification not found", db)
  | some _ => (.ok "Notification deleted successfully", db.eraseP (fun n => n.id == notif_id))

end NavyPdm

namespace NavyPdm

/-- Sample work order used to exercise the handlers on concrete input. -/
def wo1 : WorkOrder :=
  { wo := "WO-001"
    ship := "USS Cole (DDG-67)"
    homeport := "Norfolk"
    fm := "Hot Section Degradation"
    gte := "LM2500"
    priority := "CASREP"
    status := "Submitted"
    eta := 14
    symptoms := some "High EGT"
    recommended_action := none
    parts_required := none
    sla_category := some "Critical"
    created_at := 0
    updated_at := 0 }

/-- Second sample work order. -/
def wo2 : WorkOrder :=
  { wo := "WO-002"
    ship := "USS Bainbridge (DDG-96)"
    homeport := "San Diego"
    fm := "Fuel System Fault"
    gte := "LM2500"
    priority := "Routine"
    status := "Completed"
    eta := 3
    symptoms := none
    recommended_action := some "Replace nozzle"
    parts_required := some "P-001"
    sla_category := none
    created_at := 0
    updated_at := 0 }

/-- Sample work-order table. -/
def demoWos : List WorkOrder := [wo1, wo2]

/-- Sample part with stock level 3. -/
def p1 : Part :=
  { id := "P-001"
    name := "Fuel Nozzle"
    system := "LM2500"
    category := "Hot Section"
    stock_level := 3
    min_stock := 1
    max_stock := 10
    location := "Norfolk Depot"
    condition := "New"
    lead_time := "2 weeks"
    supplier := "GE"
    cost := 100.0
    last_updated := 0 }

/-- Sample parts table. -/
def demoParts : List Part := [p1]

/-- Sample notification, older timestamp. -/
def n1 : Notification :=
  { id := "N-001"
    type := "warning"
    title := "Low stock"
    message := "Fuel nozzle below minimum"
    timestamp := 5
    priority := "high"
    category := "parts"
    read := false
    work_order_id := none }

/-- Sample notification, newer timestamp. -/
def n2 : Notification :=
  { id := "N-002"
    type := "info"
    title := "Work order update"
    message := "WO-001 in progress"
    timestamp := 9
    priority := "medium"
    category := "maintenance"
    read := false
    work_order_id := some "WO-001" }

/-- Sample notifications table. -/
def demoNotifs : List Notification := [n1, n2]

/-- Stock level carried by a 200/201 part response. -/
def respStock (r : HttpResponse Part) : Option Int :=
  match r with
  | .ok p => some p.stock_level
  | .created p => some p.stock_level
  | .notFound _ => none

/-- Timestamp carried by a 200/201 part response. -/
def respLastUpdated (r : HttpResponse Part) : Option Nat :=
  match r with
  | .ok p => some p.last_updated
  | .created p => some p.last_updated
  | .notFound _ => none

/-- Timestamp carried by a 200/201 work-order response. -/
def respUpdatedAt (r : HttpResponse WorkOrder) : Option Nat :=
  match r with
  | .ok w => some w.updated_at
  | .created w => some w.updated_at
  | .notFound _ => none

/-- Entries of a part PATCH body that write the last_updated column. -/
def touchesLastUpdated : PartField → Bool
  | .last_updated _ => true
  | .lastUpdated => true
  | _ => false

lemma applyPartField_last_updated (now : Nat) (p : Part) (f : PartField)
    (h : touchesLastUpdated f = false) :
    (applyPartField now p f).last_updated = p.last_updated := by
  cases f <;> simp_all [touchesLastUpdated, applyPartField]

lemma foldl_applyPartField_last_updated (now : Nat) (data : List PartField)
    (h : ∀ f ∈ data, touchesLastUpdated f = false) (p : Part) :
    (data.foldl (applyPartField now) p).last_updated = p.last_updated := by
  induction data generalizing p with
  | nil => rfl
  | cons f rest ih =>
      rw [List.foldl_cons, ih (fun g hg => h g (List.mem_cons_of_mem f hg)),
        applyPartField_last_updated now p f (h f (List.mem_cons_self f rest))]

/-- C1: corrected.  The claim asserts that no AdjustStock request can leave
stock_level below zero, including operation add.  The add branch applies
`stock_level += quantity` with no clamp, so a request with operation add
and a negative quantity drives the stock of the sample part (stock 3)
to -7. -/
theorem c1_counterexample :
    respStock (update_stock demoParts "P-001" (-10) "add" 5).1 = some (-7) ∧
    (-7 : Int) < 0 :=
  ⟨rfl, by decide⟩

/-- C1 (amended): subtract clamps at a floor of zero, so subtracting
1000000 from stock 3 yields 0; add yields old + quantity, which stays
non-negative whenever the quantity is non-negative and the old stock was;
and both operations refresh last_updated to the current time. -/
theorem c1_stock_adjustment (db : List Part) (p : Part) (pid : String)
    (qs qa : Int) (now : Nat)
    (hfind : db.find? (fun x => x.id == pid) = some p)
    (hqa : 0 ≤ qa) (hst : 0 ≤ p.stock_level) :
    respStock (update_stock db pid qs "subtract" now).1 =
      some (max 0 (p.stock_level - qs)) ∧
    (0 : Int) ≤ max 0 (p.stock_level - qs) ∧
    respStock (update_stock db pid qa "add" now).1 = some (p.stock_level + qa) ∧
    (0 : Int) ≤ p.stock_level + qa ∧
    respLastUpdated (update_stock db pid qs "subtract" now).1 = some now ∧
    respLastUpdated (update_stock db pid qa "add" now).1 = some now := by
  have hs : (("subtract" : String) == "add") = false := by decide
  refine ⟨?_, le_max_left 0 _, ?_, add_nonneg hst hqa, ?_, ?_⟩ <;>
    simp [update_stock, hfind, hs, respStock, respLastUpdated]

/-- Concrete instantiation of c1_stock_adjustment: subtracting 1000000
from the sample part with stock 3 clamps to 0 = max 0 (3 - 1000000), and
adding 2 gives 5. -/
theorem c1_stock_adjustment_witness :
    respStock (update_stock demoParts "P-001" 1000000 "subtract" 5).1 =
      some (max 0 (p1.stock_level - 1000000)) ∧
    (0 : Int) ≤ max 0 (p1.stock_level - 1000000) ∧
    respStock (update_stock demoParts "P-001" 2 "add" 5).1 =
      some (p1.stock_level + 2) ∧
    (0 : Int) ≤ p1.stock_level + 2 ∧
    respLastUpdated (update_stock demoParts "P-001" 1000000 "subtract" 5).1 = some 5 ∧
    respLastUpdated (update_stock demoParts "P-001" 2 "add" 5).1 = some 5 :=
  c1_stock_adjustment demoParts p1 "P-001" 1000000 2 5 rfl (by decide) (by decide)

end NavyPdm

namespace NavyPdm

lemma paginate_range_flatMap {α : Type} (xs : List α) (limit N : Nat) :
    (List.range N).flatMap (fun i => paginate xs (i + 1) limit) =
      xs.take (N * limit) := by
  induction N with
  | zero => simp
  | succ n ih =>
      rw [List.range_succ, List.flatMap_append, ih, List.flatMap_cons,
        List.flatMap_nil, List.append_nil, Nat.succ_mul, List.take_add]
      simp [paginate]

/-- C2: for every filter set on each of the three entities, the envelope
reports the pre-pagination match count as total, hasNext iff
page * pageSize < total, hasPrevious iff page > 1, with defaults page = 1
and pageSize = 50; and for any page size whose first N pages cover the
matches, the concatenation of the items of pages 1..N has exactly total
elements. -/
theorem c2_pagination_envelope
    (wdb : List WorkOrder) (pdb : List Part) (ndb : List Notification)
    (pageArg limitArg : Option Nat) (limit N : Nat)
    (f1 f2 f3 g1 g2 g3 h1 h2 h3 : Option String)
    (hwN : (wdb.filter (woMatches f1 f2 f3)).length ≤ N * limit)
    (hpN : (pdb.filter (partMatches g1 g2 g3)).length ≤ N * limit)
    (hnN : (ndb.filter (notifMatches h1 h2 h3)).length ≤ N * limit) :
    get_work_orders wdb pageArg limitArg f1 f2 f3 =
      { items := paginate (wdb.filter (woMatches f1 f2 f3))
          (pageArg.getD 1) (limitArg.getD 50)
        total := (wdb.filter (woMatches f1 f2 f3)).length
        page := pageArg.getD 1
        pageSize := limitArg.getD 50
        hasNext := decide (pageArg.getD 1 * limitArg.getD 50 <
          (wdb.filter (woMatches f1 f2 f3)).length)
        hasPrevious := decide (1 < pageArg.getD 1) } ∧
    get_parts pdb pageArg limitArg g1 g2 g3 =
      { items := paginate (pdb.filter (partMatches g1 g2 g3))
          (pageArg.getD 1) (limitArg.getD 50)
        total := (pdb.filter (partMatches g1 g2 g3)).length
        page := pageArg.getD 1
        pageSize := limitArg.getD 50
        hasNext := decide (pageArg.getD 1 * limitArg.getD 50 <
          (pdb.filter (partMatches g1 g2 g3)).length)
        hasPrevious := decide (1 < pageArg.getD 1) } ∧
    get_notifications ndb pageArg limitArg h1 h2 h3 =
      { items := paginate ((ndb.filter (notifMatches h1 h2 h3)).mergeSort
          (fun a b => decide (b.timestamp ≤ a.timestamp)))
          (pageArg.getD 1) (limitArg.getD 50)
        total := (ndb.filter (notifMatches h1 h2 h3)).length
        page := pageArg.getD 1
        pageSize := limitArg.getD 50
        hasNext := decide (pageArg.getD 1 * limitArg.getD 50 <
          (ndb.filter (notifMatches h1 h2 h3)).length)
        hasPrevious := decide (1 < pageArg.getD 1) } ∧
    ((List.range N).flatMap
        (fun i => (get_work_orders wdb (some (i + 1)) (some limit) f1 f2 f3).items)).length =
      (wdb.filter (woMatches f1 f2 f3)).length ∧
    ((List.range N).flatMap
        (fun i => (get_parts pdb (some (i + 1)) (some limit) g1 g2 g3).items)).length =
      (pdb.filter (partMatches g1 g2 g3)).length ∧
    ((List.range N).flatMap
        (fun i => (get_notifications ndb (some (i + 1)) (some limit) h1 h2 h3).items)).length =
      (ndb.filter (notifMatches h1 h2 h3)).length := by
  refine ⟨rfl, rfl, rfl, ?_, ?_, ?_⟩
  · show ((List.range N).flatMap
        (fun i => paginate (wdb.filter (woMatches f1 f2 f3)) (i + 1) limit)).length = _
    rw [paginate_range_flatMap, List.take_of_length_le hwN]
  · show ((List.range N).flatMap
        (fun i => paginate (pdb.filter (partMatches g1 g2 g3)) (i + 1) limit)).length = _
    rw [paginate_range_flatMap, List.take_of_length_le hpN]
  · show ((List.range N).flatMap
        (fun i => paginate ((ndb.filter (notifMatches h1 h2 h3)).mergeSort
          (fun a b => decide (b.timestamp ≤ a.timestamp))) (i + 1) limit)).length = _
    rw [paginate_range_flatMap,
      List.take_of_length_le (by rw [List.length_mergeSort]; exact hnN),
      List.length_mergeSort]

/-- Concrete instantiation of c2_pagination_envelope: the two sample work
orders split across two pages of size 1 concatenate back to both matching
rows. -/
theorem c2_pagination_envelope_witness :
    ((List.range 2).flatMap
        (fun i => (get_work_orders demoWos (some (i + 1)) (some 1) none none none).items)).length =
      (demoWos.filter (woMatches none none none)).length :=
  (c2_pagination_envelope demoWos demoParts demoNotifs none none 1 2
    none none none none none none none none none
    (by decide) (by decide) (by decide)).2.2.2.1

end NavyPdm

namespace NavyPdm

/-- C3: corrected.  The claim asserts that PartialUpdate refreshes the
timestamp for WorkOrder and Part alike, even on an empty field map.  For
Part this fails: update_part has no unconditional timestamp write after
its field loop (and the last_updated column has no onupdate default), so a
PATCH with an empty body at time 5 returns the part with last_updated
still 0. -/
theorem c3_counterexample :
    respLastUpdated (update_part demoParts "P-001" [] 5).1 = some 0 ∧
    (0 : Nat) ≠ 5 ∧
    (update_part demoParts "P-001" [] 5).2 = demoParts :=
  ⟨rfl, by decide, rfl⟩

/-- C3 (amended): update_work_order refreshes updated_at to the current
time on every successful call, even when the field map is empty or names
no recognized field; update_part leaves last_updated unchanged whenever
the field map contains no entry naming the last_updated column. -/
theorem c3_partial_update_timestamps
    (wdb : List WorkOrder) (pdb : List Part) (w : WorkOrder) (p : Part)
    (wid pid : String) (dataW : List WoField) (dataP : List PartField) (now : Nat)
    (hw : wdb.find? (fun x => x.wo == wid) = some w)
    (hp : pdb.find? (fun x => x.id == pid) = some p)
    (hdp : ∀ f ∈ dataP, touchesLastUpdated f = false) :
    respUpdatedAt (update_work_order wdb wid dataW now).1 = some now ∧
    respLastUpdated (update_part pdb pid dataP now).1 = some p.last_updated := by
  constructor
  · simp [update_work_order, hw, respUpdatedAt]
  · simp [update_part, hp, respLastUpdated,
      foldl_applyPartField_last_updated now dataP hdp p]

/-- Concrete instantiation of c3_partial_update_timestamps: an empty PATCH
body on the sample work order still moves updated_at to 7, while a part
PATCH setting only the name leaves last_updated at its old value. -/
theorem c3_partial_update_timestamps_witness :
    respUpdatedAt (update_work_order demoWos "WO-001" [] 7).1 = some 7 ∧
    respLastUpdated (update_part demoParts "P-001" [PartField.name "Injector"] 7).1 =
      some p1.last_updated :=
  c3_partial_update_timestamps demoWos demoParts wo1 p1 "WO-001" "P-001"
    [] [PartField.name "Injector"] 7 rfl rfl (by decide)

/-- C4: for every store and non-empty search string, the work-order list
filters by a case-sensitive substring OR over ship, failure mode and
work-order code, and the parts list by one over name, id, supplier and
location; concretely, the sample work order with ship
"USS Cole (DDG-67)" matches the search "Cole" and not "cole". -/
theorem c4_search_case_sensitive
    (wdb : List WorkOrder) (pdb : List Part) (pageArg limitArg : Option Nat)
    (s : String) (hs : s ≠ "") :
    (get_work_orders wdb pageArg limitArg none none (some s)).items =
      paginate (wdb.filter (fun w =>
          strContains w.ship s || strContains w.fm s || strContains w.wo s))
        (pageArg.getD 1) (limitArg.getD 50) ∧
    (get_parts pdb pageArg limitArg none none (some s)).items =
      paginate (pdb.filter (fun p =>
          strContains p.name s || strContains p.id s ||
          strContains p.supplier s || strContains p.location s))
        (pageArg.getD 1) (limitArg.getD 50) ∧
    woMatches none none (some "Cole") wo1 = true ∧
    woMatches none none (some "cole") wo1 = false := by
  have hse : (s == "") = false := beq_eq_false_iff_ne.mpr hs
  refine ⟨?_, ?_, by decide, by decide⟩
  · show paginate (wdb.filter (woMatches none none (some s))) _ _ = _
    have hfc : wdb.filter (woMatches none none (some s)) =
        wdb.filter (fun w =>
          strContains w.ship s || strContains w.fm s || strContains w.wo s) :=
      List.filter_congr (fun w _ => by simp [woMatches, hse])
    rw [hfc]
  · show paginate (pdb.filter (partMatches none none (some s))) _ _ = _
    have hfc : pdb.filter (partMatches none none (some s)) =
        pdb.filter (fun p =>
          strContains p.name s || strContains p.id s ||
          strContains p.supplier s || strContains p.location s) :=
      List.filter_congr (fun p _ => by simp [partMatches, hse])
    rw [hfc]

/-- Concrete instantiation of c4_search_case_sensitive at the search
string "Cole" on the sample stores. -/
theorem c4_search_case_sensitive_witness :
    (get_work_orders demoWos none none none none (some "Cole")).items =
      paginate (demoWos.filter (fun w =>
          strContains w.ship "Cole" || strContains w.fm "Cole" || strContains w.wo "Cole"))
        ((none : Option Nat).getD 1) ((none : Option Nat).getD 50) ∧
    (get_parts demoParts none none none none (some "Cole")).items =
      paginate (demoParts.filter (fun p =>
          strContains p.name "Cole" || strContains p.id "Cole" ||
          strContains p.supplier "Cole" || strContains p.location "Cole"))
        ((none : Option Nat).getD 1) ((none : Option Nat).getD 50) ∧
    woMatches none none (some "Cole") wo1 = true ∧
    woMatches none none (some "cole") wo1 = false :=
  c4_search_case_sensitive demoWos demoParts none none "Cole" (by decide)

end NavyPdm

namespace NavyPdm

/-- C5: a bulk work-order update silently skips any entry whose id is not
found (the batch behaves as if the entry were absent), applies the
PartialUpdate field loop plus the updated_at refresh to a found entry and
returns the found-and-updated rows; concretely, a batch with the valid id
WO-001 and the nonexistent id ZZZ returns exactly the one updated
record. -/
theorem c5_bulk_update
    (db : List WorkOrder) (missing : String) (d : List WoField)
    (rest : List (String × List WoField)) (fid : String) (i : Nat)
    (w : WorkOrder) (d1 : List WoField) (now : Nat)
    (hmiss : db.findIdx? (fun x => x.wo == missing) = none)
    (hidx : db.findIdx? (fun x => x.wo == fid) = some i)
    (hget : db.getD i default = w) :
    bulk_update_work_orders db ((missing, d) :: rest) now =
      bulk_update_work_orders db rest now ∧
    bulk_update_work_orders db [(fid, d1)] now =
      ([{ d1.foldl applyWoField w with updated_at := now }],
        db.set i { d1.foldl applyWoField w with updated_at := now }) ∧
    bulk_update_work_orders demoWos
        [("WO-001", [WoField.status "In Progress"]), ("ZZZ", [WoField.status "Scrapped"])] 7 =
      ([{ wo1 with status := "In Progress", updated_at := 7 }],
        [{ wo1 with status := "In Progress", updated_at := 7 }, wo2]) := by
  have hlen : i < db.length := (List.findIdx?_eq_some_iff_getElem.mp hidx).1
  refine ⟨?_, ?_, by decide⟩
  · simp [bulk_update_work_orders, List.foldl_cons, hmiss]
  · rw [← hget]
    simp [bulk_update_work_orders, List.foldl_cons, hidx,
      List.getD_eq_getElem?_getD, List.getElem?_set_self hlen]

/-- Concrete instantiation of c5_bulk_update on the sample store: skipping
the nonexistent id ZZZ, updating WO-001 alone, and the mixed batch
returning exactly one record. -/
theorem c5_bulk_update_witness :
    bulk_update_work_orders demoWos [("ZZZ", []), ("WO-002", [WoField.eta 5])] 7 =
      bulk_update_work_orders demoWos [("WO-002", [WoField.eta 5])] 7 ∧
    bulk_update_work_orders demoWos [("WO-001", [WoField.status "In Progress"])] 7 =
      ([{ [WoField.status "In Progress"].foldl applyWoField wo1 with updated_at := 7 }],
        demoWos.set 0 { [WoField.status "In Progress"].foldl applyWoField wo1 with updated_at := 7 }) ∧
    bulk_update_work_orders demoWos
        [("WO-001", [WoField.status "In Progress"]), ("ZZZ", [WoField.status "Scrapped"])] 7 =
      ([{ wo1 with status := "In Progress", updated_at := 7 }],
        [{ wo1 with status := "In Progress", updated_at := 7 }, wo2]) :=
  c5_bulk_update demoWos "ZZZ" [] [("WO-002", [WoField.eta 5])] "WO-001" 0 wo1
    [WoField.status "In Progress"] 7 rfl rfl rfl

/-- C6: mark-all-read sets the read flag of every notification row
unconditionally, and a subsequent list with the read filter "false"
returns no items and total 0, for every category/priority filter and
page. -/
theorem c6_mark_all_read (db : List Notification) (pageArg limitArg : Option Nat)
    (cat pri : Option String) :
    (∀ n ∈ (mark_all_notifications_read db).2, n.read = true) ∧
    (get_notifications (mark_all_notifications_read db).2
        pageArg limitArg cat pri (some "false")).items = [] ∧
    (get_notifications (mark_all_notifications_read db).2
        pageArg limitArg cat pri (some "false")).total = 0 := by
  have hlow : (pyLower "false" == "true") = false := by decide
  have hnil : ((mark_all_notifications_read db).2).filter
      (notifMatches cat pri (some "false")) = [] := by
    rw [List.filter_eq_nil_iff]
    intro n hn
    rcases List.mem_map.mp hn with ⟨m, _, rfl⟩
    simp [notifMatches, hlow]
  refine ⟨?_, ?_, ?_⟩
  · intro n hn
    rcases List.mem_map.mp hn with ⟨m, _, rfl⟩
    rfl
  · show paginate (((mark_all_notifications_read db).2.filter
        (notifMatches cat pri (some "false"))).mergeSort
        (fun a b => decide (b.timestamp ≤ a.timestamp))) _ _ = []
    rw [hnil, List.mergeSort_nil]
    simp [paginate]
  · show ((mark_all_notifications_read db).2.filter
        (notifMatches cat pri (some "false"))).length = 0
    rw [hnil]
    rfl

end NavyPdm

namespace NavyPdm

/-- C7: on an id absent from the store, lookup, partial-update and delete
(and, for notifications, mark-read) answer 404 with the message
"<Entity> not found" and leave the store unchanged; on a present id none
of these operations answers 404. -/
theorem c7_not_found_behavior
    (wdb : List WorkOrder) (pdb : List Part) (ndb : List Notification)
    (mw mp mn ew ep en : String) (dW : List WoField) (dP : List PartField) (now : Nat)
    (hmw : wdb.find? (fun w => w.wo == mw) = none)
    (hmp : pdb.find? (fun p => p.id == mp) = none)
    (hmn : ndb.find? (fun n => n.id == mn) = none)
    (hew : (wdb.find? (fun w => w.wo == ew)).isSome = true)
    (hep : (pdb.find? (fun p => p.id == ep)).isSome = true)
    (hen : (ndb.find? (fun n => n.id == en)).isSome = true) :
    get_work_order wdb mw = .notFound "Work order not found" ∧
    update_work_order wdb mw dW now = (.notFound "Work order not found", wdb) ∧
    delete_work_order wdb mw = (.notFound "Work order not found", wdb) ∧
    get_part pdb mp = .notFound "Part not found" ∧
    update_part pdb mp dP now = (.notFound "Part not found", pdb) ∧
    delete_part pdb mp = (.notFound "Part not found", pdb) ∧
    mark_notification_read ndb mn = (.notFound "Notification not found", ndb) ∧
    delete_notification ndb mn = (.notFound "Notification not found", ndb) ∧
    (get_work_order wdb ew).isNotFound = false ∧
    (update_work_order wdb ew dW now).1.isNotFound = false ∧
    (delete_work_order wdb ew).1.isNotFound = false ∧
    (get_part pdb ep).isNotFound = false ∧
    (update_part pdb ep dP now).1.isNotFound = false ∧
    (delete_part pdb ep).1.isNotFound = false ∧
    (mark_notification_read ndb en).1.isNotFound = false ∧
    (delete_notification ndb en).1.isNotFound = false := by
  obtain ⟨w, hw⟩ := Option.isSome_iff_exists.mp hew
  obtain ⟨p, hp⟩ := Option.isSome_iff_exists.mp hep
  obtain ⟨n, hn⟩ := Option.isSome_iff_exists.mp hen
  refine ⟨?_, ?_, ?_, ?_, ?_, ?_, ?_, ?_, ?_, ?_, ?_, ?_, ?_, ?_, ?_, ?_⟩ <;>
    simp [get_work_order, update_work_order, delete_work_order, get_part,
      update_part, delete_part, mark_notification_read, delete_notification,
      HttpResponse.isNotFound, hmw, hmp, hmn, hw, hp, hn]

/-- Concrete instantiation of c7_not_found_behavior on the sample stores,
with the absent id ZZZ and the present ids WO-001, P-001 and N-001. -/
theorem c7_not_found_behavior_witness :
    get_work_order demoWos "ZZZ" = .notFound "Work order not found" ∧
    update_work_order demoWos "ZZZ" [] 7 = (.notFound "Work order not found", demoWos) ∧
    delete_work_order demoWos "ZZZ" = (.notFound "Work order not found", demoWos) ∧
    get_part demoParts "ZZZ" = .notFound "Part not found" ∧
    update_part demoParts "ZZZ" [] 7 = (.notFound "Part not found", demoParts) ∧
    delete_part demoParts "ZZZ" = (.notFound "Part not found", demoParts) ∧
    mark_notification_read demoNotifs "ZZZ" = (.notFound "Notification not found", demoNotifs) ∧
    delete_notification demoNotifs "ZZZ" = (.notFound "Notification not found", demoNotifs) ∧
    (get_work_order demoWos "WO-001").isNotFound = false ∧
    (update_work_order demoWos "WO-001" [] 7).1.isNotFound = false ∧
    (delete_work_order demoWos "WO-001").1.isNotFound = false ∧
    (get_part demoParts "P-001").isNotFound = false ∧
    (update_part demoParts "P-001" [] 7).1.isNotFound = false ∧
    (delete_part demoParts "P-001").1.isNotFound = false ∧
    (mark_notification_read demoNotifs "N-001").1.isNotFound = false ∧
    (delete_notification demoNotifs "N-001").1.isNotFound = false :=
  c7_not_found_behavior demoWos demoParts demoNotifs "ZZZ" "ZZZ" "ZZZ"
    "WO-001" "P-001" "N-001" [] [] 7 rfl rfl rfl rfl rfl rfl

/-- C8: creating a work order whose code is not yet in the store and
immediately looking it up by that code returns a record whose business
fields are exactly the request fields and whose created_at and updated_at
both default to the creation time. -/
theorem c8_create_then_get
    (db : List WorkOrder) (data : WorkOrderInput) (now : Nat)
    (hfresh : db.find? (fun w => w.wo == data.wo) = none) :
    (create_work_order db data now).1 = .created
      { wo := data.wo, ship := data.ship, homeport := data.homeport,
        fm := data.fm, gte := data.gte, priority := data.priority,
        status := data.status, eta := data.eta, symptoms := data.symptoms,
        recommended_action := data.recommendedAction,
        parts_required := data.partsRequired, sla_category := data.slaCategory,
        created_at := now, updated_at := now } ∧
    get_work_order (create_work_order db data now).2 data.wo = .ok
      { wo := data.wo, ship := data.ship, homeport := data.homeport,
        fm := data.fm, gte := data.gte, priority := data.priority,
        status := data.status, eta := data.eta, symptoms := data.symptoms,
        recommended_action := data.recommendedAction,
        parts_required := data.partsRequired, sla_category := data.slaCategory,
        created_at := now, updated_at := now } := by
  refine ⟨rfl, ?_⟩
  simp only [create_work_order, get_work_order]
  rw [List.find?_append, hfresh]
  simp [List.find?]

/-- Concrete instantiation of c8_create_then_get on the sample store with
a fresh work-order code. -/
theorem c8_create_then_get_witness :
    (create_work_order demoWos
        { wo := "WO-003", ship := "USS Gravely (DDG-107)", homeport := "Norfolk",
          fm := "Compressor Stall", gte := "LM2500", priority := "Urgent",
          status := "Submitted", eta := 7, symptoms := none,
          recommendedAction := none, partsRequired := none, slaCategory := none } 9).1 =
      .created
        { wo := "WO-003", ship := "USS Gravely (DDG-107)", homeport := "Norfolk",
          fm := "Compressor Stall", gte := "LM2500", priority := "Urgent",
          status := "Submitted", eta := 7, symptoms := none,
          recommended_action := none, parts_required := none, sla_category := none,
          created_at := 9, updated_at := 9 } ∧
    get_work_order (create_work_order demoWos
        { wo := "WO-003", ship := "USS Gravely (DDG-107)", homeport := "Norfolk",
          fm := "Compressor Stall", gte := "LM2500", priority := "Urgent",
          status := "Submitted", eta := 7, symptoms := none,
          recommendedAction := none, partsRequired := none, slaCategory := none } 9).2
      "WO-003" =
      .ok
        { wo := "WO-003", ship := "USS Gravely (DDG-107)", homeport := "Norfolk",
          fm := "Compressor Stall", gte := "LM2500", priority := "Urgent",
          status := "Submitted", eta := 7, symptoms := none,
          recommended_action := none, parts_required := none, sla_category := none,
          created_at := 9, updated_at := 9 } :=
  c8_create_then_get demoWos
    { wo := "WO-003", ship := "USS Gravely (DDG-107)", homeport := "Norfolk",
      fm := "Compressor Stall", gte := "LM2500", priority := "Urgent",
      status := "Submitted", eta := 7, symptoms := none,
      recommendedAction := none, partsRequired := none, slaCategory := none } 9 rfl

/-- C9: for every store, filter combination and page, the items returned
by the notification list are ordered newest-timestamp-first, that is,
pairwise descending by timestamp. -/
theorem c9_notifications_newest_first
    (db : List Notification) (pageArg limitArg : Option Nat)
    (cat pri readArg : Option String) :
    (get_notifications db pageArg limitArg cat pri readArg).items.Pairwise
      (fun a b => b.timestamp ≤ a.timestamp) := by
  have hsorted : ((db.filter (notifMatches cat pri readArg)).mergeSort
      (fun a b => decide (b.timestamp ≤ a.timestamp))).Pairwise
      (fun a b => decide (b.timestamp ≤ a.timestamp) = true) :=
    List.sorted_mergeSort
      (by intro a b c hab hbc; simp only [decide_eq_true_eq] at *; omega)
      (by intro a b; simp only [Bool.or_eq_true, decide_eq_true_eq]; omega)
      (db.filter (notifMatches cat pri readArg))
  have hsub : ((get_notifications db pageArg limitArg cat pri readArg).items).Sublist
      ((db.filter (notifMatches cat pri readArg)).mergeSort
        (fun a b => decide (b.timestamp ≤ a.timestamp))) :=
    (List.take_sublist _ _).trans (List.drop_sublist _ _)
  exact ((hsorted.sublist hsub).imp (fun h => of_decide_eq_true h))

/-- C10: a stock-adjustment request whose operation is neither add nor
subtract still succeeds with the part in the 200 body, leaves stock_level
and every other business field unchanged, and refreshes last_updated to
the current time. -/
theorem c10_stock_unknown_operation
    (db : List Part) (p : Part) (pid : String) (q : Int) (op : String) (now : Nat)
    (hfind : db.find? (fun x => x.id == pid) = some p)
    (hadd : (op == "add") = false) (hsub : (op == "subtract") = false) :
    update_stock db pid q op now =
      (.ok { p with last_updated := now },
        db.map (fun x => if x.id == pid then { p with last_updated := now } else x)) := by
  simp [update_stock, hfind, hadd, hsub]

/-- Concrete instantiation of c10_stock_unknown_operation: operation
"set" on the sample part returns it with stock still 3 and last_updated
moved to 5. -/
theorem c10_stock_unknown_operation_witness :
    update_stock demoParts "P-001" 42 "set" 5 =
      (.ok { p1 with last_updated := 5 },
        demoParts.map (fun x => if x.id == "P-001" then { p1 with last_updated := 5 } else x)) :=
  c10_stock_unknown_operation demoParts p1 "P-001" 42 "set" 5 rfl (by decide) (by decide)

end NavyPdm
